import Mathlib

/-
Shallow embedding of the deterministic state-machine core of
raiden/transfer/architecture.py: the StateManager batch dispatcher and the
balance-proof value objects with their construction-time invariants.

The Python code is dynamically typed and uses exceptions; here fallible
operations return `Except`.  External collaborators (the canonical hash
function `hash_balance_data`, the `CanonicalIdentifier.validate` check, the
`deepcopy` helper) live outside the embedded module and are taken as
parameters or modelled from the spec, as noted on each definition.
-/

namespace Raiden

/-- Largest value of a 64-bit unsigned integer (raiden.constants.UINT64_MAX). -/
def UINT64_MAX : Int := 2 ^ 64 - 1

/-- Largest value of a 256-bit unsigned integer (raiden.constants.UINT256_MAX). -/
def UINT256_MAX : Int := 2 ^ 256 - 1

/-- Modelled from the spec: `deepcopy` (raiden.utils.copy, external) produces a
full defensive copy of a state value.  On pure Lean values a deep copy is the
value itself. -/
def deepcopy {α : Type} (x : α) : α := x

/-- Modelled from the spec: `CanonicalIdentifier` (raiden.transfer.identifiers,
external) is the composite key of chain id, token-network address and channel
id.  Its `validate` method is an external collaborator and is taken as a
parameter by the balance-proof constructors. -/
structure CanonicalIdentifier where
  chain_identifier : Int
  token_network_address : List Nat
  channel_identifier : Int
deriving DecidableEq

/-- A dynamically typed value offered to the state manager as an event: either
a well-typed `Event` (the `valid` case) or some other Python value that is not
an instance of the `Event` marker class (the `invalid` case). -/
inductive DynEvent (E : Type) where
  | valid : E → DynEvent E
  | invalid : DynEvent E
deriving DecidableEq

/-- Whether a dynamically typed event value passes `typecheck(e, Event)`. -/
def DynEvent.isValid {E : Type} : DynEvent E → Bool
  | .valid _ => true
  | .invalid => false

/-- Extract the well-typed event, when there is one. -/
def DynEvent.toOption {E : Type} : DynEvent E → Option E
  | .valid e => some e
  | .invalid => none

/-- The dynamically typed `new_state` field of a reducer result: either a
well-typed `State` (the `valid` case) or a value failing
`typecheck(iteration.new_state, State)` — this covers both `None` and a value
of the wrong type (the `invalid` case). -/
inductive DynState (S : Type) where
  | valid : S → DynState S
  | invalid : DynState S
deriving DecidableEq

/-- TransitionResult: the result of applying a single state change, a pair of
a `new_state` and a list of produced events.  Construction does not validate
the fields; the state manager typechecks them after every reducer call. -/
structure TransitionResult (S E : Type) where
  new_state : DynState S
  events : List (DynEvent E)
deriving DecidableEq

/-- The dynamically typed outcome of calling the injected reducer: it may
return a proper `TransitionResult`, raise an exception, or return a value that
is not a `TransitionResult` at all. -/
inductive ReducerOutput (S E : Type) where
  | result : TransitionResult S E → ReducerOutput S E
  | raised : ReducerOutput S E
  | notTransitionResult : ReducerOutput S E
deriving DecidableEq

/-- The errors `StateManager.dispatch` can raise: `ValueError` on an empty
batch, a propagated reducer exception, and the `typecheck` failures on the
reducer's result, its events and its new state. -/
inductive DispatchError where
  | emptyBatch
  | reducerRaised
  | notTransitionResult
  | invalidEvent
  | invalidNewState
deriving DecidableEq

/-- The per-iteration body of the dispatch loop
(architecture.py lines 271-280): call already performed, this checks
`typecheck(iteration, TransitionResult)`, then `typecheck(e, Event)` for each
event, then `typecheck(iteration.new_state, State)`, and yields the new state
together with the (well-typed) events of this iteration. -/
def checkIteration {S E : Type} : ReducerOutput S E → Except DispatchError (S × List E)
  | .raised => .error .reducerRaised
  | .notTransitionResult => .error .notTransitionResult
  | .result tr =>
    if tr.events.all DynEvent.isValid then
      match tr.new_state with
      | .valid s => .ok (s, tr.events.filterMap DynEvent.toOption)
      | .invalid => .error .invalidNewState
    else .error .invalidEvent

/-- The dispatch loop over a non-empty batch (architecture.py lines 269-281):
apply the reducer to the working state and the first change, check the
iteration, append its events, thread the new state into the rest of the batch.
Returns the final state together with one event list per state change, in
input order. -/
def dispatchLoop {S C E : Type} (f : Option S → C → ReducerOutput S E) :
    Option S → C → List C → Except DispatchError (S × List (List E))
  | st, c, rest =>
    match checkIteration (f st c) with
    | .error e => .error e
    | .ok (s, es) =>
      match rest with
      | [] => .ok (s, [es])
      | c2 :: rest2 =>
        match dispatchLoop f (some s) c2 rest2 with
        | .error e => .error e
        | .ok (final, ess) => .ok (final, es :: ess)

/-- StateManager: the mutable storage for the application state, holding the
injected reducer `state_transition` and the `current_state` cell. -/
structure StateManager (S C E : Type) where
  state_transition : Option S → C → ReducerOutput S E
  current_state : Option S

/-- `StateManager.dispatch` (architecture.py lines 246-285).  The Python
method mutates `self.current_state`; here the post-call manager is returned
alongside the result.  An empty batch raises `ValueError`; otherwise the
current state is defensively copied, the batch is folded through the reducer
with per-iteration typechecks, and only after the whole batch succeeds is the
final state published as the new `current_state`.  On any error the manager is
returned unchanged, as the Python exception propagates before the assignment
on line 283. -/
def StateManager.dispatch {S C E : Type} (sm : StateManager S C E)
    (state_changes : List C) :
    StateManager S C E × Except DispatchError (S × List (List E)) :=
  match state_changes with
  | [] => (sm, .error .emptyBatch)
  | c :: rest =>
    match dispatchLoop sm.state_transition (deepcopy sm.current_state) c rest with
    | .error e => (sm, .error e)
    | .ok (final, ess) =>
      ({ sm with current_state := some final }, .ok (final, ess))

/-- BalanceProofUnsignedState: balance proof from the local node without the
signature (architecture.py lines 298-336).  Amounts are Python ints, byte
strings are lists of bytes. -/
structure BalanceProofUnsignedState where
  nonce : Int
  transferred_amount : Int
  locked_amount : Int
  locksroot : List Nat
  canonical_identifier : CanonicalIdentifier
  balance_hash : List Nat
deriving DecidableEq

/-- Construction of `BalanceProofUnsignedState`: the dataclass `__post_init__`
validation (architecture.py lines 309-336).  `hbd` is the external canonical
hash function `hash_balance_data`; `validate` is the external canonical
identifier validator; `balance_hash` is the caller-supplied field value
(defaulting to `EMPTY_BALANCE_HASH` in Python), which the hook overwrites
with the recomputed hash. -/
def mkBalanceProofUnsignedState
    (hbd : Int → Int → List Nat → List Nat)
    (validate : CanonicalIdentifier → Bool)
    (nonce transferred_amount locked_amount : Int)
    (locksroot : List Nat)
    (canonical_identifier : CanonicalIdentifier)
    (balance_hash : List Nat) :
    Except String BalanceProofUnsignedState :=
  if nonce ≤ 0 then .error "nonce cannot be zero or negative"
  else if nonce > UINT64_MAX then .error "nonce is too large"
  else if transferred_amount < 0 then .error "transferred_amount cannot be negative"
  else if transferred_amount > UINT256_MAX then .error "transferred_amount is too large"
  else if locksroot.length ≠ 32 then .error "locksroot must have length 32"
  else if validate canonical_identifier = false then
    .error "canonical identifier validation failed"
  else
    .ok { nonce := nonce
          transferred_amount := transferred_amount
          locked_amount := locked_amount
          locksroot := locksroot
          canonical_identifier := canonical_identifier
          balance_hash := hbd transferred_amount locked_amount locksroot }

/-- BalanceProofSignedState: proof of a channel balance that can be used
on-chain to resolve disputes (architecture.py lines 351-403). -/
structure BalanceProofSignedState where
  nonce : Int
  transferred_amount : Int
  locked_amount : Int
  locksroot : List Nat
  message_hash : List Nat
  signature : List Nat
  sender : List Nat
  canonical_identifier : CanonicalIdentifier
  balance_hash : List Nat
deriving DecidableEq

/-- Construction of `BalanceProofSignedState`: the dataclass `__post_init__`
validation (architecture.py lines 367-403), with the same external
collaborators as the unsigned variant, plus the message-hash and signature
length checks. -/
def mkBalanceProofSignedState
    (hbd : Int → Int → List Nat → List Nat)
    (validate : CanonicalIdentifier → Bool)
    (nonce transferred_amount locked_amount : Int)
    (locksroot message_hash signature sender : List Nat)
    (canonical_identifier : CanonicalIdentifier)
    (balance_hash : List Nat) :
    Except String BalanceProofSignedState :=
  if nonce ≤ 0 then .error "nonce cannot be zero or negative"
  else if nonce > UINT64_MAX then .error "nonce is too large"
  else if transferred_amount < 0 then .error "transferred_amount cannot be negative"
  else if transferred_amount > UINT256_MAX then .error "transferred_amount is too large"
  else if locksroot.length ≠ 32 then .error "locksroot must have length 32"
  else if message_hash.length ≠ 32 then .error "message_hash is an invalid hash"
  else if signature.length ≠ 65 then .error "signature is an invalid signature"
  else if validate canonical_identifier = false then
    .error "canonical identifier validation failed"
  else
    .ok { nonce := nonce
          transferred_amount := transferred_amount
          locked_amount := locked_amount
          locksroot := locksroot
          message_hash := message_hash
          signature := signature
          sender := sender
          canonical_identifier := canonical_identifier
          balance_hash := hbd transferred_amount locked_amount locksroot }

/-- A concrete stand-in for the external canonical hash function, used only to
instantiate witnesses. -/
def hbd0 : Int → Int → List Nat → List Nat :=
  fun a b c => (a.toNat % 256) :: (b.toNat % 256) :: c

/-- A canonical-identifier validator that accepts, for witnesses. -/
def valTrue : CanonicalIdentifier → Bool := fun _ => true

/-- A concrete canonical identifier for witnesses. -/
def ci0 : CanonicalIdentifier := ⟨1, List.replicate 20 0, 1⟩

/-- 32 zero bytes. -/
def z32 : List Nat := List.replicate 32 0

/-- A 65-byte value, for signatures in witnesses. -/
def sig65 : List Nat := List.replicate 65 1

/-- A 20-byte address, for witnesses. -/
def addr0 : List Nat := List.replicate 20 0

/-- The unsigned balance proof built by the witness construction. -/
def bU0 : BalanceProofUnsignedState := ⟨5, 100, 0, z32, ci0, hbd0 100 0 z32⟩

/-- The signed balance proof built by the witness construction. -/
def bS0 : BalanceProofSignedState := ⟨5, 100, 0, z32, z32, sig65, addr0, ci0, hbd0 100 0 z32⟩

/-- The counter reducer of the spec's concrete scenario: increment by one per
state change, emit no events. -/
def incReducer : Option Nat → Nat → ReducerOutput Nat Nat :=
  fun s _ => .result ⟨.valid (s.getD 0 + 1), []⟩

/-- A state manager over the counter reducer, starting at counter 0. -/
def smCounter : StateManager Nat Nat Nat := ⟨incReducer, some 0⟩

/-- A second, independently constructed state manager with the same reducer
and the same initial state. -/
def smCounterB : StateManager Nat Nat Nat := ⟨incReducer, some 0⟩

/-- A reducer whose return value is not a TransitionResult. -/
def badReducer : Option Nat → Nat → ReducerOutput Nat Nat :=
  fun _ _ => .notTransitionResult

/-- A reducer that raises on every call. -/
def raisingReducer : Option Nat → Nat → ReducerOutput Nat Nat :=
  fun _ _ => .raised

/-- A state manager over the raising reducer. -/
def smRaising : StateManager Nat Nat Nat := ⟨raisingReducer, some 5⟩

theorem all_map_valid {E : Type} (l : List E) :
    (l.map DynEvent.valid).all DynEvent.isValid = true := by
  induction l with
  | nil => rfl
  | cons a t ih => simp [List.all_cons, DynEvent.isValid, ih]

theorem filterMap_toOption_map_valid {E : Type} (l : List E) :
    (l.map DynEvent.valid).filterMap DynEvent.toOption = l := by
  induction l with
  | nil => rfl
  | cons a t ih => simp [List.filterMap_cons, DynEvent.toOption, ih]

theorem filterMap_toOption_comp_valid {E : Type} (l : List E) :
    List.filterMap (DynEvent.toOption ∘ DynEvent.valid) l = l := by
  induction l with
  | nil => rfl
  | cons a t ih => simp [List.filterMap_cons, DynEvent.toOption, ih]

theorem checkIteration_valid {S E : Type} (s : S) (l : List E) :
    checkIteration (ReducerOutput.result ⟨DynState.valid s, l.map DynEvent.valid⟩) =
      .ok (s, l) := by
  simp [checkIteration, all_map_valid, filterMap_toOption_map_valid,
    filterMap_toOption_comp_valid]

theorem mkBalanceProofUnsignedState_ok
    (hbd : Int → Int → List Nat → List Nat) (v : CanonicalIdentifier → Bool)
    (n tr la : Int) (lr : List Nat) (ci : CanonicalIdentifier) (bh : List Nat)
    (h1 : 0 < n) (h2 : n ≤ UINT64_MAX) (h3 : 0 ≤ tr) (h4 : tr ≤ UINT256_MAX)
    (h5 : lr.length = 32) (h6 : v ci = true) :
    mkBalanceProofUnsignedState hbd v n tr la lr ci bh =
      .ok ⟨n, tr, la, lr, ci, hbd tr la lr⟩ := by
  unfold mkBalanceProofUnsignedState
  rw [if_neg (by omega), if_neg (by omega), if_neg (by omega), if_neg (by omega),
    if_neg (by omega), if_neg (by simp [h6])]

theorem mkBalanceProofUnsignedState_error
    (hbd : Int → Int → List Nat → List Nat) (v : CanonicalIdentifier → Bool)
    (n tr la : Int) (lr : List Nat) (ci : CanonicalIdentifier) (bh : List Nat)
    (h : ¬(0 < n ∧ n ≤ UINT64_MAX ∧ 0 ≤ tr ∧ tr ≤ UINT256_MAX ∧
      lr.length = 32 ∧ v ci = true)) :
    ∃ e, mkBalanceProofUnsignedState hbd v n tr la lr ci bh = .error e := by
  unfold mkBalanceProofUnsignedState
  split
  · exact ⟨_, rfl⟩
  split
  · exact ⟨_, rfl⟩
  split
  · exact ⟨_, rfl⟩
  split
  · exact ⟨_, rfl⟩
  split
  · exact ⟨_, rfl⟩
  split
  · exact ⟨_, rfl⟩
  rename_i h1 h2 h3 h4 h5 h6
  exact absurd ⟨by omega, by omega, by omega, by omega, by omega, by simpa using h6⟩ h

theorem mkBalanceProofSignedState_ok
    (hbd : Int → Int → List Nat → List Nat) (v : CanonicalIdentifier → Bool)
    (n tr la : Int) (lr mh sig snd : List Nat) (ci : CanonicalIdentifier) (bh : List Nat)
    (h1 : 0 < n) (h2 : n ≤ UINT64_MAX) (h3 : 0 ≤ tr) (h4 : tr ≤ UINT256_MAX)
    (h5 : lr.length = 32) (h7 : mh.length = 32) (h8 : sig.length = 65)
    (h6 : v ci = true) :
    mkBalanceProofSignedState hbd v n tr la lr mh sig snd ci bh =
      .ok ⟨n, tr, la, lr, mh, sig, snd, ci, hbd tr la lr⟩ := by
  unfold mkBalanceProofSignedState
  rw [if_neg (by omega), if_neg (by omega), if_neg (by omega), if_neg (by omega),
    if_neg (by omega), if_neg (by omega), if_neg (by omega), if_neg (by simp [h6])]

theorem mkBalanceProofSignedState_error
    (hbd : Int → Int → List Nat → List Nat) (v : CanonicalIdentifier → Bool)
    (n tr la : Int) (lr mh sig snd : List Nat) (ci : CanonicalIdentifier) (bh : List Nat)
    (h : ¬(0 < n ∧ n ≤ UINT64_MAX ∧ 0 ≤ tr ∧ tr ≤ UINT256_MAX ∧
      lr.length = 32 ∧ mh.length = 32 ∧ sig.length = 65 ∧ v ci = true)) :
    ∃ e, mkBalanceProofSignedState hbd v n tr la lr mh sig snd ci bh = .error e := by
  unfold mkBalanceProofSignedState
  split
  · exact ⟨_, rfl⟩
  split
  · exact ⟨_, rfl⟩
  split
  · exact ⟨_, rfl⟩
  split
  · exact ⟨_, rfl⟩
  split
  · exact ⟨_, rfl⟩
  split
  · exact ⟨_, rfl⟩
  split
  · exact ⟨_, rfl⟩
  split
  · exact ⟨_, rfl⟩
  rename_i h1 h2 h3 h4 h5 h7 h8 h6
  exact absurd
    ⟨by omega, by omega, by omega, by omega, by omega, by omega, by omega, by simpa using h6⟩ h

/-- C1: for every construction of BalanceProofUnsignedState or
BalanceProofSignedState that succeeds, the resulting balance_hash field equals
the canonical hash function applied to (transferred_amount, locked_amount,
locksroot), regardless of any caller-supplied balance_hash value: a
caller-supplied balance_hash is always overwritten and never trusted. -/
theorem balance_hash_never_trusted :
    (∀ (hbd : Int → Int → List Nat → List Nat) (v : CanonicalIdentifier → Bool)
      (n tr la : Int) (lr : List Nat) (ci : CanonicalIdentifier) (bh : List Nat)
      (b : BalanceProofUnsignedState),
      mkBalanceProofUnsignedState hbd v n tr la lr ci bh = .ok b →
      b.balance_hash = hbd tr la lr) ∧
    (∀ (hbd : Int → Int → List Nat → List Nat) (v : CanonicalIdentifier → Bool)
      (n tr la : Int) (lr mh sig snd : List Nat) (ci : CanonicalIdentifier) (bh : List Nat)
      (b : BalanceProofSignedState),
      mkBalanceProofSignedState hbd v n tr la lr mh sig snd ci bh = .ok b →
      b.balance_hash = hbd tr la lr) := by
  constructor
  · intro hbd v n tr la lr ci bh b h
    unfold mkBalanceProofUnsignedState at h
    repeat' split at h
    all_goals first
      | (injection h with h; subst h; rfl)
      | injection h
  · intro hbd v n tr la lr mh sig snd ci bh b h
    unfold mkBalanceProofSignedState at h
    repeat' split at h
    all_goals first
      | (injection h with h; subst h; rfl)
      | injection h

/-- Witness for C1: a concrete successful construction of each variant, with a
caller-supplied balance_hash of [9] that is overwritten by the recomputed
hash. -/
theorem balance_hash_never_trusted_witness :
    bU0.balance_hash = hbd0 100 0 z32 ∧ bS0.balance_hash = hbd0 100 0 z32 :=
  ⟨balance_hash_never_trusted.1 hbd0 valTrue 5 100 0 z32 ci0 [9] bU0
     (mkBalanceProofUnsignedState_ok hbd0 valTrue 5 100 0 z32 ci0 [9]
       (by decide) (by norm_num [UINT64_MAX]) (by decide) (by norm_num [UINT256_MAX])
       (by decide) rfl),
   balance_hash_never_trusted.2 hbd0 valTrue 5 100 0 z32 z32 sig65 addr0 ci0 [9] bS0
     (mkBalanceProofSignedState_ok hbd0 valTrue 5 100 0 z32 z32 sig65 addr0 ci0 [9]
       (by decide) (by norm_num [UINT64_MAX]) (by decide) (by norm_num [UINT256_MAX])
       (by decide) (by decide) (by decide) rfl)⟩

/-- C5: for every nonce in (0, 2^64−1], every transferred_amount and
locked_amount in [0, 2^256−1], every locksroot of exactly 32 bytes, and every
canonical identifier that passes its validation, constructing
BalanceProofUnsignedState succeeds and the constructed object's balance_hash
equals the canonical hash of (transferred_amount, locked_amount,
locksroot). -/
theorem unsigned_construction_succeeds_in_range
    (hbd : Int → Int → List Nat → List Nat) (v : CanonicalIdentifier → Bool)
    (n tr la : Int) (lr : List Nat) (ci : CanonicalIdentifier) (bh : List Nat)
    (h1 : 0 < n) (h2 : n ≤ UINT64_MAX) (h3 : 0 ≤ tr) (h4 : tr ≤ UINT256_MAX)
    (h5 : 0 ≤ la) (h6 : la ≤ UINT256_MAX) (h7 : lr.length = 32) (h8 : v ci = true) :
    ∃ b, mkBalanceProofUnsignedState hbd v n tr la lr ci bh = .ok b ∧
      b.balance_hash = hbd tr la lr :=
  ⟨_, mkBalanceProofUnsignedState_ok hbd v n tr la lr ci bh h1 h2 h3 h4 h7 h8, rfl⟩

/-- Witness for C5: the spec's concrete scenario, nonce 5, transferred amount
100, locked amount 0, locksroot of 32 zero bytes. -/
theorem unsigned_construction_succeeds_in_range_witness :
    ∃ b, mkBalanceProofUnsignedState hbd0 valTrue 5 100 0 z32 ci0 [] = .ok b ∧
      b.balance_hash = hbd0 100 0 z32 :=
  unsigned_construction_succeeds_in_range hbd0 valTrue 5 100 0 z32 ci0 []
    (by decide) (by norm_num [UINT64_MAX]) (by decide) (by norm_num [UINT256_MAX])
    (by decide) (by norm_num [UINT256_MAX]) (by decide) rfl

/-- C10: neither balance-proof variant performs any range validation on
locked_amount at construction: with all other fields valid, construction
succeeds for a negative locked_amount or one greater than 2^256−1, and the
out-of-range value flows into the computed balance_hash. -/
theorem locked_amount_not_range_checked
    (hbd : Int → Int → List Nat → List Nat) (v : CanonicalIdentifier → Bool)
    (n tr la : Int) (lr mh sig snd : List Nat) (ci : CanonicalIdentifier) (bh : List Nat)
    (h1 : 0 < n) (h2 : n ≤ UINT64_MAX) (h3 : 0 ≤ tr) (h4 : tr ≤ UINT256_MAX)
    (h5 : lr.length = 32) (h6 : mh.length = 32) (h7 : sig.length = 65)
    (h8 : v ci = true)
    (hla : la < 0 ∨ UINT256_MAX < la) :
    (∃ b, mkBalanceProofUnsignedState hbd v n tr la lr ci bh = .ok b ∧
      b.balance_hash = hbd tr la lr) ∧
    (∃ b, mkBalanceProofSignedState hbd v n tr la lr mh sig snd ci bh = .ok b ∧
      b.balance_hash = hbd tr la lr) :=
  ⟨⟨_, mkBalanceProofUnsignedState_ok hbd v n tr la lr ci bh h1 h2 h3 h4 h5 h8, rfl⟩,
   ⟨_, mkBalanceProofSignedState_ok hbd v n tr la lr mh sig snd ci bh
      h1 h2 h3 h4 h5 h6 h7 h8, rfl⟩⟩

/-- Witness for C10: locked_amount −1 is accepted by both variants and enters
the hash. -/
theorem locked_amount_not_range_checked_witness :
    (∃ b, mkBalanceProofUnsignedState hbd0 valTrue 5 100 (-1) z32 ci0 [] = .ok b ∧
      b.balance_hash = hbd0 100 (-1) z32) ∧
    (∃ b, mkBalanceProofSignedState hbd0 valTrue 5 100 (-1) z32 z32 sig65 addr0 ci0 []
        = .ok b ∧ b.balance_hash = hbd0 100 (-1) z32) :=
  locked_amount_not_range_checked hbd0 valTrue 5 100 (-1) z32 z32 sig65 addr0 ci0 []
    (by decide) (by norm_num [UINT64_MAX]) (by decide) (by norm_num [UINT256_MAX])
    (by decide) (by decide) (by decide) rfl (Or.inl (by decide))

/-- C3: for every StateManager, calling dispatch with an empty list of state
changes raises an explicit error, and current_state is unchanged by the failed
call (the returned manager is the unmodified input manager). -/
theorem dispatch_empty_batch_errors {S C E : Type} (sm : StateManager S C E) :
    sm.dispatch [] = (sm, .error DispatchError.emptyBatch) := rfl

/-- C2: dispatch folds the batch left-to-right through the reducer: for batch
[c1, c2], with R(S0, c1) = (S1, E1) and R(S1, c2) = (S2, E2), dispatch returns
final state S2 together with the event-list sequence [E1, E2], one entry per
input change in input order, and current_state afterwards equals S2. -/
theorem dispatch_folds_batch {S C E : Type} (sm : StateManager S C E) (c1 c2 : C)
    (s1 s2 : S) (e1 e2 : List E)
    (h1 : sm.state_transition sm.current_state c1 =
      .result ⟨.valid s1, e1.map DynEvent.valid⟩)
    (h2 : sm.state_transition (some s1) c2 =
      .result ⟨.valid s2, e2.map DynEvent.valid⟩) :
    sm.dispatch [c1, c2] =
      ({ sm with current_state := some s2 }, .ok (s2, [e1, e2])) := by
  unfold StateManager.dispatch
  simp [deepcopy, dispatchLoop, h1, h2, checkIteration_valid]

/-- Witness for C2: the spec's concrete scenario, a counter reducer that
increments by one per change and emits no events, dispatched with two changes
from initial state 0, yielding final state 2 and event lists [[], []]. -/
theorem dispatch_folds_batch_witness :
    smCounter.dispatch [7, 8] =
      ({ smCounter with current_state := some 2 }, .ok (2, [[], []])) :=
  dispatch_folds_batch smCounter 7 8 1 2 [] [] rfl rfl

/-- C7: determinism of dispatch as a two-run property: two independent
StateManager instances with the same reducer and equal current_state,
dispatching the same ordered batch, return equal results and end with equal
current_state. -/
theorem dispatch_deterministic {S C E : Type} (sm1 sm2 : StateManager S C E)
    (batch : List C)
    (hf : sm1.state_transition = sm2.state_transition)
    (hs : sm1.current_state = sm2.current_state) :
    sm1.dispatch batch = sm2.dispatch batch ∧
    (sm1.dispatch batch).1.current_state = (sm2.dispatch batch).1.current_state := by
  obtain ⟨f1, st1⟩ := sm1
  obtain ⟨f2, st2⟩ := sm2
  dsimp only at hf hs
  subst hf
  subst hs
  exact ⟨rfl, rfl⟩

/-- Witness for C7: two independently constructed managers over the counter
reducer with the same initial state agree on a concrete batch. -/
theorem dispatch_deterministic_witness :
    smCounter.dispatch [3] = smCounterB.dispatch [3] ∧
    (smCounter.dispatch [3]).1.current_state =
      (smCounterB.dispatch [3]).1.current_state :=
  dispatch_deterministic smCounter smCounterB [3] rfl rfl

/-- C9: dispatch publishes to current_state only after the entire batch has
been processed successfully: if the call fails partway through (a reducer
raises or a contract typecheck on a reducer result fails), the manager — and
with it current_state — is exactly as it was before the call. -/
theorem dispatch_error_preserves_manager {S C E : Type} (sm : StateManager S C E)
    (batch : List C) (err : DispatchError)
    (h : (sm.dispatch batch).2 = .error err) :
    (sm.dispatch batch).1 = sm := by
  cases batch with
  | nil => rfl
  | cons c rest =>
    unfold StateManager.dispatch at h ⊢
    cases hl : dispatchLoop sm.state_transition (deepcopy sm.current_state) c rest with
    | error e => simp [hl]
    | ok p =>
      obtain ⟨final, ess⟩ := p
      simp [hl] at h

/-- Witness for C9: a manager whose reducer raises on every call; a dispatch
of one change fails and leaves the manager unchanged. -/
theorem dispatch_error_preserves_manager_witness :
    (smRaising.dispatch [0]).1 = smRaising :=
  dispatch_error_preserves_manager smRaising [0] DispatchError.reducerRaised rfl

/-- C6: during dispatch, after every reducer invocation the result is checked:
if the reducer returns a value that is not a TransitionResult, or a
TransitionResult whose new_state is not a well-typed State (including absent),
or one of whose events is not a well-typed Event, then dispatch aborts the
batch by raising a fatal error rather than continuing. -/
theorem dispatch_aborts_on_contract_violation {S C E : Type}
    (f : Option S → C → ReducerOutput S E) (st : Option S) (c : C) (rest : List C)
    (h : f st c = .notTransitionResult
      ∨ (∃ tr, f st c = .result tr ∧ tr.new_state = DynState.invalid)
      ∨ (∃ tr, f st c = .result tr ∧ tr.events.all DynEvent.isValid = false)) :
    ∃ err, err ≠ DispatchError.emptyBatch ∧
      dispatchLoop f st c rest = .error err ∧
      StateManager.dispatch ⟨f, st⟩ (c :: rest) = (⟨f, st⟩, .error err) := by
  have hchk : ∃ err, err ≠ DispatchError.emptyBatch ∧
      checkIteration (f st c) = .error err := by
    rcases h with h | ⟨tr, h, hns⟩ | ⟨tr, h, hev⟩
    · exact ⟨.notTransitionResult, by simp, by rw [h]; rfl⟩
    · rw [h]
      by_cases hall : tr.events.all DynEvent.isValid
      · exact ⟨.invalidNewState, by simp, by simp [checkIteration, hall, hns]⟩
      · exact ⟨.invalidEvent, by simp, by simp [checkIteration, hall]⟩
    · exact ⟨.invalidEvent, by simp, by rw [h]; simp [checkIteration, hev]⟩
  obtain ⟨err, hne, hchk⟩ := hchk
  refine ⟨err, hne, ?_, ?_⟩
  · rw [dispatchLoop, hchk]
  · unfold StateManager.dispatch
    simp only [deepcopy]
    rw [dispatchLoop]
    simp [hchk]

/-- Witness for C6: a reducer returning a non-TransitionResult value aborts a
one-change dispatch. -/
theorem dispatch_aborts_on_contract_violation_witness :
    ∃ err, err ≠ DispatchError.emptyBatch ∧
      dispatchLoop badReducer (some 0) 0 [] = .error err ∧
      StateManager.dispatch ⟨badReducer, some 0⟩ [0] =
        (⟨badReducer, some 0⟩, .error err) :=
  dispatch_aborts_on_contract_violation badReducer (some 0) 0 [] (Or.inl rfl)

/-- C4: balance-proof construction fails with a validation error on the
malformed fields the spec lists: for both variants nonce = 0, nonce = 2^64, a
negative transferred_amount, or a locksroot whose length is not 32 each cause
construction to fail; for BalanceProofSignedState additionally a signature
whose length is not 65 or a message_hash whose length is not 32 each cause
construction to fail. -/
theorem construction_fails_on_malformed_fields
    (hbd : Int → Int → List Nat → List Nat) (v : CanonicalIdentifier → Bool)
    (n tr la : Int) (lr mh sig snd : List Nat) (ci : CanonicalIdentifier)
    (bh : List Nat) :
    ((n = 0 ∨ n = 2 ^ 64 ∨ tr < 0 ∨ lr.length ≠ 32) →
      (∃ e, mkBalanceProofUnsignedState hbd v n tr la lr ci bh = .error e) ∧
      (∃ e, mkBalanceProofSignedState hbd v n tr la lr mh sig snd ci bh = .error e)) ∧
    ((sig.length ≠ 65 ∨ mh.length ≠ 32) →
      ∃ e, mkBalanceProofSignedState hbd v n tr la lr mh sig snd ci bh = .error e) := by
  constructor
  · intro h
    have hU : ¬(0 < n ∧ n ≤ UINT64_MAX ∧ 0 ≤ tr ∧ tr ≤ UINT256_MAX ∧
        lr.length = 32 ∧ v ci = true) := by
      rintro ⟨a1, a2, a3, a4, a5, a6⟩
      rcases h with h | h | h | h
      · omega
      · subst h
        norm_num [UINT64_MAX] at a2
      · omega
      · exact h a5
    have hS : ¬(0 < n ∧ n ≤ UINT64_MAX ∧ 0 ≤ tr ∧ tr ≤ UINT256_MAX ∧
        lr.length = 32 ∧ mh.length = 32 ∧ sig.length = 65 ∧ v ci = true) := by
      rintro ⟨a1, a2, a3, a4, a5, a6, a7, a8⟩
      exact hU ⟨a1, a2, a3, a4, a5, a8⟩
    exact ⟨mkBalanceProofUnsignedState_error hbd v n tr la lr ci bh hU,
      mkBalanceProofSignedState_error hbd v n tr la lr mh sig snd ci bh hS⟩
  · intro h
    apply mkBalanceProofSignedState_error
    rintro ⟨a1, a2, a3, a4, a5, a6, a7, a8⟩
    rcases h with h | h
    · exact h a7
    · exact h a6

/-- Witness for C4: nonce 0 makes both constructions fail, and an empty
signature and message hash make the signed construction fail. -/
theorem construction_fails_on_malformed_fields_witness :
    ((∃ e, mkBalanceProofUnsignedState hbd0 valTrue 0 100 0 z32 ci0 [] = .error e) ∧
     (∃ e, mkBalanceProofSignedState hbd0 valTrue 0 100 0 z32 [] [] addr0 ci0 []
        = .error e)) ∧
    (∃ e, mkBalanceProofSignedState hbd0 valTrue 0 100 0 z32 [] [] addr0 ci0 []
        = .error e) :=
  ⟨(construction_fails_on_malformed_fields hbd0 valTrue 0 100 0 z32 [] [] addr0
      ci0 []).1 (Or.inl rfl),
   (construction_fails_on_malformed_fields hbd0 valTrue 0 100 0 z32 [] [] addr0
      ci0 []).2 (Or.inl (by decide))⟩

end Raiden
